import Mathlib

/-!
Verification of the Webpack configuration factory
(`config-ts-src/webpack/app-base.ts`), the CLI build script, and the Modal
component of the `react-utils` repository, via a shallow embedding in Lean.

Machine-level JavaScript details are embedded as follows: JS values that can
flow out of `JSON.parse` are modelled by the inductive `JsonVal`; `undefined`
optional fields are `Option` fields; JS truthiness is made explicit
(`JsonVal.truthy`, and `Option`-truthiness per field type); file-system and
process effects are collected in explicit effect lists, in source order.
-/

namespace ReactUtils

/-- JSON values, as returned by `JSON.parse` (numbers are modelled as
integers: no claim depends on fractional values). -/
inductive JsonVal where
  | jnull : JsonVal
  | jbool (b : Bool) : JsonVal
  | jnum (n : Int) : JsonVal
  | jstr (s : String) : JsonVal
  | jarr (items : List JsonVal) : JsonVal
  | jobj (fields : List (String × JsonVal)) : JsonVal
deriving Repr

namespace JsonVal

/-- JavaScript truthiness of a parsed JSON value: `null`, `false`, `0` and
`""` are falsy; every object and array is truthy. -/
def truthy : JsonVal → Bool
  | jnull => false
  | jbool b => b
  | jnum n => n != 0
  | jstr s => s != ""
  | jarr _ => true
  | jobj _ => true

end JsonVal

/-- The build-info record type (`BuildInfoT` in `app-base.ts`). -/
structure BuildInfoT where
  key : String
  publicPath : String
  timestamp : String
  useServiceWorker : Bool
deriving Repr, DecidableEq

/-- A `BuildInfoT` as a JS object value, with the field order used by the
object literal in `configFactory` (key, publicPath, useServiceWorker,
timestamp). -/
def BuildInfoT.toJson (b : BuildInfoT) : JsonVal :=
  .jobj [
    ("key", .jstr b.key),
    ("publicPath", .jstr b.publicPath),
    ("useServiceWorker", .jbool b.useServiceWorker),
    ("timestamp", .jstr b.timestamp)]

/-- The TS `keepBuildInfo?: boolean | BuildInfoT` union. -/
inductive KeepBuildInfoT where
  | bool (b : Bool) : KeepBuildInfoT
  | info (b : BuildInfoT) : KeepBuildInfoT
deriving Repr, DecidableEq

/-- The TS `workbox?: boolean | object` union; an object is modelled by its
field list. -/
inductive WorkboxT where
  | bool (b : Bool) : WorkboxT
  | obj (fields : List (String × JsonVal)) : WorkboxT
deriving Repr

/-- JS truthiness of the `workbox` option (an absent field is `undefined`,
hence falsy; an object is always truthy). -/
def workboxTruthy : Option WorkboxT → Bool
  | none => false
  | some (.bool b) => b
  | some (.obj _) => true

/-- The TS `entry: string | string[]` union. -/
inductive EntryT where
  | str (s : String) : EntryT
  | list (l : List String) : EntryT
deriving Repr, DecidableEq

/-- The options record accepted by `configFactory` (`OptionsT` in
`app-base.ts`); optional TS fields are `Option` fields (`none` =
`undefined`).  The `fs` option (an injectable file system) is part of the
environment model, not of this record. -/
structure OptionsT where
  babelEnv : String
  babelLoaderOptions : Option (List (String × JsonVal)) := none
  context : String
  cssLocalIdent : Option String := none
  dontEmitBuildInfo : Option Bool := none
  dontUseProgressPlugin : Option Bool := none
  entry : EntryT
  keepBuildInfo : Option KeepBuildInfoT := none
  mode : String
  outputPath : Option String := none
  publicPath : Option String := none
  sitemap : Option String := none
  typescript : Option Bool := none
  workbox : Option WorkboxT := none
deriving Repr

/-- Lodash `clone`: a shallow copy.  On the record embedding it returns an
equal record; what matters for the mutation claims is that it is a distinct
store cell, which the heap model below makes explicit. -/
def lodashClone (ops : OptionsT) : OptionsT := ops

/-- Lodash `defaults(o, dflt)` as called in `configFactory`: each of the four
defaulted fields is filled in only when it is `undefined` in `o`. -/
def applyDefaults (o : OptionsT) : OptionsT :=
  { o with
    babelLoaderOptions := some (o.babelLoaderOptions.getD []),
    cssLocalIdent := some (o.cssLocalIdent.getD "[hash:base64:6]"),
    outputPath := some (o.outputPath.getD "build/web-public"),
    publicPath := some (o.publicPath.getD "") }

/-- The normalized options: `defaults(clone(ops), {...})` from
`configFactory`. -/
def normalizeOptions (ops : OptionsT) : OptionsT :=
  applyDefaults (lodashClone ops)

/-- Node's `path.resolve(base, p)`: an absolute `p` (starting with `/`) wins,
otherwise `p` is joined to `base` (a faithful model for the path shapes used
here). -/
def pathResolve (base p : String) : String :=
  if p.data.head? = some '/' then p else base ++ "/" ++ p

/-- A JS string literal as produced by `JSON.stringify` (escaping quotes and
backslashes; control-character escapes do not matter for any claim). -/
def jsStringLiteral (s : String) : String :=
  "\"" ++ String.join (s.toList.map fun c =>
    if c = '"' then "\\\"" else if c = '\\' then "\\\\" else String.singleton c) ++ "\""

/-- The `JSON.stringify` rendering of a parsed JSON value. -/
def JsonVal.stringify : JsonVal → String
  | .jnull => "null"
  | .jbool true => "true"
  | .jbool false => "false"
  | .jnum n => toString n
  | .jstr s => jsStringLiteral s
  | .jarr items =>
      "[" ++ String.intercalate ","
        (items.attach.map fun x => x.1.stringify) ++ "]"
  | .jobj fields =>
      "\x7b" ++ String.intercalate ","
        (fields.attach.map fun x =>
          jsStringLiteral x.1.1 ++ ":" ++ x.1.2.stringify) ++ "\x7d"
decreasing_by
  · have := List.sizeOf_lt_of_mem x.2
    simp only [JsonVal.jarr.sizeOf_spec]
    omega
  · have h1 := List.sizeOf_lt_of_mem x.2
    have h2 : sizeOf x.1.2 < sizeOf x.1 := by
      obtain ⟨⟨a, b⟩, hx⟩ := x
      simp
    simp only [JsonVal.jobj.sizeOf_spec]
    omega

/-- The `sitemap` config module loaded by `require(sitemapUrl)`: either a
list of sitemap entries, or a factory returning such a list. -/
inductive SitemapModuleT where
  | value (entries : List String) : SitemapModuleT
  | factory (f : Unit → List String) : SitemapModuleT

/-- The ambient environment of one `configFactory` call: the module's
`__dirname`, the nondeterministic inputs (`forge.random.getBytesSync(32)`,
`new Date().toISOString()`), the relevant file-system state, the loaded
sitemap module and the sitemap library's rendering (entries to XML). -/
structure FactoryEnv where
  dirname : String
  randomKey32 : String
  nowISO : String
  buildInfoFileExists : Bool
  buildInfoFileContent : JsonVal
  outDirExists : Bool
  sitemapModule : SitemapModuleT
  renderSitemap : List String → String

/-- File-system effects performed by `configFactory`, in initiation order. -/
inductive FsEffect where
  | mkdir (dir : String) : FsEffect
  | mkdirRecursive (dir : String) : FsEffect
  | writeFile (path content : String) : FsEffect
deriving Repr, DecidableEq

/-- JS truthiness of an optional string (`undefined` and `""` are falsy). -/
def strTruthy : Option String → Bool
  | none => false
  | some s => s != ""

/-- The entry list streamed into the sitemap library: the loaded module, or
its return value when it is a function (`if (isFunction(source))
source = source()`). -/
def sitemapSource (env : FactoryEnv) : List String :=
  match env.sitemapModule with
  | .value entries => entries
  | .factory f => f ()

/-- The sitemap block of `configFactory` (lines 181-198): when `o.sitemap` is
truthy, render the entries and write `sitemap.xml` into the resolved output
directory, creating that directory when it does not exist.  (In the source
the write happens in an unawaited promise; the effects are recorded here in
initiation order.) -/
def sitemapEffects (o : OptionsT) (env : FactoryEnv) : List FsEffect :=
  if strTruthy o.sitemap then
    let xml := env.renderSitemap (sitemapSource env)
    let outUrl := pathResolve o.context (o.outputPath.getD "")
    (if env.outDirExists then [] else [.mkdir outUrl]) ++
      [.writeFile (pathResolve outUrl "sitemap.xml") xml]
  else []

/-- The fresh build-info object generated by `configFactory` when nothing was
provided or loaded. -/
def freshBuildInfo (o : OptionsT) (env : FactoryEnv) : BuildInfoT :=
  { key := env.randomKey32
    publicPath := o.publicPath.getD ""
    useServiceWorker := workboxTruthy o.workbox
    timestamp := env.nowISO }

/-- The build-info value settled by `configFactory` (lines 205-236): if
`o.keepBuildInfo` is truthy and `=== true`, attempt to load (parse) the
`.build-info` file when it exists; if it is truthy and not `true` it is the
build-info object itself; finally, if the settled value is still undefined
or falsy, generate a fresh object. -/
def factoryBuildInfo (o : OptionsT) (env : FactoryEnv) : JsonVal :=
  let loaded : Option JsonVal :=
    match o.keepBuildInfo with
    | some (.bool true) =>
        if env.buildInfoFileExists then some env.buildInfoFileContent else none
    | some (.bool false) => none
    | some (.info b) => some b.toJson
    | none => none
  match loaded with
  | some v => if v.truthy then v else (freshBuildInfo o env).toJson
  | none => (freshBuildInfo o env).toJson

/-- The build-info emission of `configFactory` (lines 241-247): unless
`o.dontEmitBuildInfo` is truthy, `mkdirSync(o.context, {recursive: true})`
and write the stringified build info to `path.resolve(o.context,
'.build-info')`. -/
def buildInfoEffects (o : OptionsT) (env : FactoryEnv) : List FsEffect :=
  if o.dontEmitBuildInfo.getD false then []
  else
    [.mkdirRecursive o.context,
     .writeFile (pathResolve o.context ".build-info")
       (factoryBuildInfo o env).stringify]

/-- Entry-point normalization (lines 250-255): three polyfills, then the
caller's entries (a string becoming a one-element list). -/
def entryList (o : OptionsT) : List String :=
  ["core-js/stable", "regenerator-runtime/runtime", "nodelist-foreach-polyfill"] ++
    (match o.entry with
     | .str s => [s]
     | .list l => l)

/-- The workbox rewrite, `if (o.workbox) \x7b if (!isObject(o.workbox))
o.workbox = \x7b\x7d; ... \x7d`
(line 265): a truthy non-object `workbox` value is replaced by an empty
object on the cloned options record. -/
def workboxRewrite (o : OptionsT) : OptionsT :=
  if workboxTruthy o.workbox then
    match o.workbox with
    | some (.obj _) => o
    | _ => { o with workbox := some (.obj []) }
  else o

/-- Webpack plugin instances pushed by `configFactory`, by kind and the
constructor arguments that claims can observe.  The InjectManifest options
are `\x7b swSrc, ...o.workbox, swDest: '__service-worker.js' \x7d`; the
spread source (the rewritten `o.workbox` object) is recorded as given. -/
inductive PluginT where
  | define (buildInfoJson : String) : PluginT
  | progress : PluginT
  | workboxInjectManifest (swSrc : String) (spread : List (String × JsonVal)) : PluginT
deriving Repr

/-- The Babel loader `options` object (lines 322-330): literal fields plus
the spread of `o.babelLoaderOptions` (whose keys override the literals). -/
structure BabelLoaderOptionsT where
  babelrc : Bool
  configFile : Bool
  envName : String
  presetTypescript : Bool
  spread : List (String × JsonVal)
deriving Repr

/-- The parts of the returned Webpack `Configuration` object that the claims
observe. -/
structure WebpackConfigT where
  context : String
  entry : List String
  nodeDirname : Bool
  mode : String
  outputChunkFilename : String
  outputFilename : String
  outputPath : String
  outputPublicPath : String
  plugins : List PluginT
  resolveAliasAssets : String
  resolveAliasComponents : String
  resolveAliasFonts : String
  resolveAliasStyles : String
  resolveSymlinks : Bool
  babelLoaderOptions : BabelLoaderOptionsT
  cssLocalIdentName : String
deriving Repr

/-- The result of one `configFactory` call: the file-system effects it
initiates and the configuration object it returns. -/
structure FactoryResult where
  effects : List FsEffect
  config : WebpackConfigT

/-- The factory `configFactory(ops)` from `app-base.ts`, over an explicit
environment:
normalizes the options, initiates the sitemap effects, settles and (unless
opted out) persists the build info, and assembles the configuration
object. -/
def configFactory (ops : OptionsT) (env : FactoryEnv) : FactoryResult :=
  let o := normalizeOptions ops
  let buildInfo := factoryBuildInfo o env
  let o2 := workboxRewrite o
  let plugins :=
    [PluginT.define buildInfo.stringify] ++
    (if ops.dontUseProgressPlugin.getD false then [] else [.progress]) ++
    (if workboxTruthy o.workbox then
      [.workboxInjectManifest
        (pathResolve env.dirname "../workbox/default.js")
        (match o2.workbox with
         | some (.obj fields) => fields
         | _ => [])]
     else [])
  { effects := sitemapEffects o env ++ buildInfoEffects o env
    config := {
      context := o.context
      entry := entryList o
      nodeDirname := true
      mode := o.mode
      outputChunkFilename := "[contenthash].js"
      outputFilename := "[contenthash].js"
      outputPath := pathResolve (pathResolve env.dirname o.context) (o.outputPath.getD "")
      outputPublicPath := o.publicPath.getD "" ++ "/"
      plugins := plugins
      resolveAliasAssets := pathResolve o.context "src/assets"
      resolveAliasComponents := pathResolve o.context "src/shared/components"
      resolveAliasFonts := pathResolve o.context "src/assets/fonts"
      resolveAliasStyles := pathResolve o.context "src/styles"
      resolveSymlinks := false
      babelLoaderOptions := {
        babelrc := false
        configFile := false
        envName := o.babelEnv
        presetTypescript := o.typescript.getD false
        spread := o.babelLoaderOptions.getD [] }
      cssLocalIdentName := o.cssLocalIdent.getD "" } }

/-- The store of options records touched by one `configFactory` call, with
the caller's record at address 0: `clone(ops)` allocates address 1 holding a
shallow copy, `defaults` then mutates address 1 in place, and the workbox
rewrite assigns to `o.workbox`, i.e. to address 1. -/
def factoryOpsStore (ops : OptionsT) : List OptionsT :=
  let h : List OptionsT := [ops]
  let h := h ++ [h.headD ops]
  let h := h.set 1 (applyDefaults (h.getD 1 ops))
  h.set 1 (workboxRewrite (h.getD 1 ops))

/-! ## The CLI build script -/

/-- The `BUILD_TYPES.DEVELOPMENT` constant of the CLI build script. -/
def BUILD_TYPES_DEVELOPMENT : String := "development"

/-- The `BUILD_TYPES.PRODUCTION` constant of the CLI build script. -/
def BUILD_TYPES_PRODUCTION : String := "production"

/-- The list `VALID_BUILD_TYPES = Object.values(BUILD_TYPES)`. -/
def VALID_BUILD_TYPES : List String :=
  [BUILD_TYPES_DEVELOPMENT, BUILD_TYPES_PRODUCTION]

/-- The command-line options of the build script, with commander's declared
defaults; flags without a default are `Option`/`false` when omitted. -/
structure CmdLineArgs where
  lib : Bool := false
  inDir : String := "src"
  outDir : String := "build"
  buildType : Option String := none
  watch : Bool := false
  webpackConfig : String := "webpack.config.js"
  copyFiles : Option String := none
deriving Repr, DecidableEq

/-- The test `VALID_BUILD_TYPES.includes(buildType)`: an omitted build type
(`undefined`) is never included. -/
def validBuildType : Option String → Bool
  | none => false
  | some t => VALID_BUILD_TYPES.contains t

/-- Effects of the top-level CLI script, in program order. -/
inductive ScriptEffect where
  | rimraf (dir : String) : ScriptEffect
  | mkdirRecursive (dir : String) : ScriptEffect
  | webpackCompile (outDir : String) (watch : Bool) : ScriptEffect
  | execBabel (cmd : String) : ScriptEffect
  | copyMatching (src dst re : String) : ScriptEffect
deriving Repr, DecidableEq

/-- The Babel command line built by the script (`BABEL_CMD_JS`). -/
def babelCmdJs (cwd inDir outDir buildType : String) : String :=
  cwd ++ "/node_modules/.bin/babel" ++ " " ++ inDir ++ " --out-dir " ++ outDir
    ++ " --source-maps"
    ++ (if buildType = BUILD_TYPES_PRODUCTION then " --minified" else "")

/-- The SVG variant of the Babel command (`BABEL_CMD_SVG`). -/
def babelCmdSvg (cwd inDir outDir buildType : String) : String :=
  babelCmdJs cwd inDir outDir buildType
    ++ " --extensions \".svg\" --keep-file-extension"

/-- The top-level flow of the CLI build script, from the build-type
validation on: it returns the effect trace performed and `some message` when
the script threw.  A throw aborts before any further statement runs, so the
trace accumulated up to it is all that happened. -/
def runBuildScript (args : CmdLineArgs) (cwd : String) :
    List ScriptEffect × Option String :=
  if ¬ validBuildType args.buildType then ([], some "Invalid build type")
  else
    let buildType := args.buildType.getD ""
    let inDir := pathResolve cwd args.inDir
    let outDir0 := pathResolve cwd args.outDir
    let outDir := if args.lib then outDir0 ++ "/" ++ buildType else outDir0
    let webpackOutDir := if args.lib then outDir else outDir ++ "/web-public"
    (([.rimraf outDir, .mkdirRecursive outDir,
       .webpackCompile webpackOutDir args.watch,
       .execBabel (babelCmdJs cwd inDir outDir buildType),
       .execBabel (babelCmdSvg cwd inDir outDir buildType)] ++
      (match args.copyFiles with
       | some re => [.copyMatching inDir outDir re]
       | none => [])), none)

/-- A webpack asset as seen in `namedChunkGroups` stats (only its `name` is
projected out by the script; `size` stands for the other fields). -/
structure AssetT where
  name : String
  size : Nat
deriving Repr, DecidableEq

/-- The parts of the webpack `stats` object read by the compilation-results
handler. -/
structure WebpackStatsT where
  hasErrors : Bool
  hasWarnings : Bool
  errorsInfo : List String
  warningsInfo : List String
  statsString : String
  namedChunkGroups : List (String × List AssetT)
deriving Repr, DecidableEq

/-- The fatal `error` argument of the handler (`error.stack || error`, plus
optional `error.details`). -/
structure JsErrorT where
  stack : String
  details : Option String
deriving Repr, DecidableEq

/-- Effects of `handleWebpackCompilationResults`, in program order.  The
chunk-group manifest write carries the mapping value; on disk it is stored
as `JSON.stringify(chunks, null, 2)`. -/
inductive HandlerEffect where
  | logErrorStack (s : String) : HandlerEffect
  | logErrorDetails (s : String) : HandlerEffect
  | logStatsErrors (errs : List String) : HandlerEffect
  | logWarnings (ws : List String) : HandlerEffect
  | logStats (s : String) : HandlerEffect
  | setExitCode (n : Nat) : HandlerEffect
  | writeChunkGroups (path : String) (chunks : List (String × List String)) : HandlerEffect
deriving Repr, DecidableEq

/-- The mapping `mapValues(stats.toJson(...).namedChunkGroups, (item) =>
item.assets.map((a) => a.name))`. -/
def chunkGroupsMapping (stats : WebpackStatsT) : List (String × List String) :=
  stats.namedChunkGroups.map fun g => (g.1, g.2.map AssetT.name)

/-- The fatal-error logging of the handler (lines 114-116):
`console.error(error.stack || error)` and, when present,
`console.error(error.details)`. -/
def fatalErrorLogs : Option JsErrorT → List HandlerEffect
  | some e => .logErrorStack e.stack ::
      (match e.details with
       | some d => [.logErrorDetails d]
       | none => [])
  | none => []

/-- The stats-error logging of the handler (line 125):
`console.error('Error defailts:', info.errors)` when `stats.hasErrors()`. -/
def statsErrorLogs (stats : WebpackStatsT) : List HandlerEffect :=
  if stats.hasErrors then [.logStatsErrors stats.errorsInfo] else []

/-- The handler `handleWebpackCompilationResults(error, stats)` of the CLI build
script, over the enclosing `buildType` and `webpackOutDir`: logs failures,
sets `process.exitCode = 1` and returns early on failure outside development
mode, and otherwise logs the stats and writes the chunk-group manifest. -/
def handleWebpackCompilationResults (buildType webpackOutDir : String)
    (error : Option JsErrorT) (stats : WebpackStatsT) : List HandlerEffect :=
  if error.isSome && buildType != BUILD_TYPES_DEVELOPMENT then
    fatalErrorLogs error ++ [.setExitCode 1]
  else if stats.hasErrors && buildType != BUILD_TYPES_DEVELOPMENT then
    fatalErrorLogs error ++ statsErrorLogs stats ++ [.setExitCode 1]
  else
    fatalErrorLogs error ++ statsErrorLogs stats ++
    (if stats.hasWarnings then [.logWarnings stats.warningsInfo] else []) ++
    [.logStats stats.statsString,
     .writeChunkGroups (webpackOutDir ++ "/__chunk_groups__.json")
       (chunkGroupsMapping stats)]

/-! ## The Modal component -/

/-- The static attributes of the overlay `<div>` rendered by `BaseModal`. -/
structure OverlayDivT where
  ariaLabel : String
  role : String
  tabIndex : Int
deriving Repr, DecidableEq

/-- The overlay element of `BaseModal` (lines 107-130 of
`Modal/index.tsx`). -/
def modalOverlay : OverlayDivT :=
  { ariaLabel := "Cancel", role := "button", tabIndex := 0 }

/-- What one dispatched DOM event did: whether the `onCancel` prop was
invoked and whether `e.stopPropagation()` was called. -/
structure EventOutcome where
  invokedOnCancel : Bool
  stoppedPropagation : Bool
deriving Repr, DecidableEq

/-- The overlay's `onClick` handler; `onCancel = none` models an absent
callback prop. -/
def overlayOnClick (onCancel : Option Unit) : EventOutcome :=
  match onCancel with
  | some _ => { invokedOnCancel := true, stoppedPropagation := true }
  | none => { invokedOnCancel := false, stoppedPropagation := false }

/-- The overlay's `onKeyDown` handler (`if (e.key === 'Escape' &&
onCancel)`). -/
def overlayOnKeyDown (onCancel : Option Unit) (key : String) : EventOutcome :=
  if key = "Escape" then
    match onCancel with
    | some _ => { invokedOnCancel := true, stoppedPropagation := true }
    | none => { invokedOnCancel := false, stoppedPropagation := false }
  else { invokedOnCancel := false, stoppedPropagation := false }

/-! ## Helper definitions for the theorems -/

/-- The field names of a JSON object value (empty for non-objects). -/
def jsonObjFieldNames : JsonVal → List String
  | .jobj fields => fields.map Prod.fst
  | _ => []

/-- Recognizes a write to `path.resolve(context, '.build-info')`. -/
def buildInfoWriteP (context : String) : FsEffect → Bool
  | .writeFile p _ => p == pathResolve context ".build-info"
  | _ => false

/-- An example options record: a plain app build. -/
def exOptions : OptionsT :=
  { babelEnv := "production", context := "/proj", entry := .str "./src",
    mode := "production" }

/-- An example environment for `configFactory`. -/
def exEnv : FactoryEnv :=
  { dirname := "/lib", randomKey32 := "RNDKEY", nowISO := "2026-01-01T00:00:00.000Z",
    buildInfoFileExists := false, buildInfoFileContent := .jnull,
    outDirExists := false, sitemapModule := .value [],
    renderSitemap := fun _ => "<urlset/>" }

/-- An example build-info record. -/
def exBuildInfo : BuildInfoT :=
  { key := "K", publicPath := "/pp", timestamp := "2025-12-31T00:00:00.000Z",
    useServiceWorker := true }

/-- An example fatal webpack error. -/
def exErr : JsErrorT := { stack := "boom", details := none }

/-- An example webpack stats object of a clean compilation. -/
def exStats : WebpackStatsT :=
  { hasErrors := false, hasWarnings := false, errorsInfo := [],
    warningsInfo := [], statsString := "stats",
    namedChunkGroups := [("main", [{ name := "main.js", size := 1 }])] }

/-- Example options with a configured sitemap. -/
def exOptionsSitemap : OptionsT := { exOptions with sitemap := some "sitemap.js" }

/-- Example environment whose sitemap module is a factory function. -/
def exEnvSitemap : FactoryEnv :=
  { exEnv with sitemapModule := .factory fun _ => ["/a", "/b"] }

/-- Unfolding `path.resolve` on a relative second argument. -/
theorem pathResolve_rel (base p : String) (h : p.data.head? ≠ some '/') :
    pathResolve base p = base ++ "/" ++ p := by
  simp [pathResolve, h]

/-- A sitemap write path and a build-info write path never coincide: they
end in different characters. -/
theorem sitemap_path_ne_build_info_path (a b : String) :
    a ++ "/" ++ "sitemap.xml" ≠ b ++ "/" ++ ".build-info" := by
  intro h
  have h2 := congrArg (fun s => s.data.getLast?) h
  simp only [String.data_append] at h2
  rw [List.getLast?_append_of_ne_nil _ (by decide),
    List.getLast?_append_of_ne_nil _ (by decide)] at h2
  exact absurd h2 (by decide)

/-- The sitemap block never writes to the `.build-info` path. -/
theorem sitemapEffects_no_build_info_write (o : OptionsT) (env : FactoryEnv)
    (ctx : String) :
    (sitemapEffects o env).filter (buildInfoWriteP ctx) = [] := by
  unfold sitemapEffects
  by_cases hs : strTruthy o.sitemap
  · simp only [hs, if_true, List.filter_append]
    have hpred : (pathResolve (pathResolve o.context (o.outputPath.getD ""))
        "sitemap.xml" == pathResolve ctx ".build-info") = false := by
      rw [beq_eq_false_iff_ne]
      rw [pathResolve_rel _ "sitemap.xml" (by decide),
        pathResolve_rel _ ".build-info" (by decide)]
      exact sitemap_path_ne_build_info_path _ _
    by_cases ho : env.outDirExists <;>
      simp [ho, List.filter, buildInfoWriteP, hpred]
  · simp [hs]

/-! ## Claim theorems -/

/-- C1: for every call of `configFactory(ops)`, the build-info decision is
the three-way branch: a build-info object supplied in `ops.keepBuildInfo` is
used as-is; `keepBuildInfo = true` uses the `.build-info` file of
`ops.context` when that file exists and holds a usable (truthy) value; in
every other case (option absent or `false`, file absent, or the loaded value
falsy) a fresh build-info object is generated.  The settled value is the one
the factory injects through its leading `DefinePlugin`. -/
theorem configFactory_build_info_three_way (ops : OptionsT) (env : FactoryEnv) :
    (∀ b : BuildInfoT, ops.keepBuildInfo = some (.info b) →
      factoryBuildInfo (normalizeOptions ops) env = b.toJson) ∧
    (ops.keepBuildInfo = some (.bool true) → env.buildInfoFileExists = true →
      env.buildInfoFileContent.truthy = true →
      factoryBuildInfo (normalizeOptions ops) env = env.buildInfoFileContent) ∧
    ((ops.keepBuildInfo = none ∨ ops.keepBuildInfo = some (.bool false) ∨
      (ops.keepBuildInfo = some (.bool true) ∧
        (env.buildInfoFileExists = false ∨ env.buildInfoFileContent.truthy = false))) →
      factoryBuildInfo (normalizeOptions ops) env =
        (freshBuildInfo (normalizeOptions ops) env).toJson) ∧
    (configFactory ops env).config.plugins.head? =
      some (PluginT.define (factoryBuildInfo (normalizeOptions ops) env).stringify) := by
  have hkeep : (normalizeOptions ops).keepBuildInfo = ops.keepBuildInfo := rfl
  refine ⟨?_, ?_, ?_, rfl⟩
  · intro b hb
    simp [factoryBuildInfo, hkeep, hb, BuildInfoT.toJson, JsonVal.truthy]
  · intro h1 h2 h3
    simp [factoryBuildInfo, hkeep, h1, h2, h3]
  · rintro (h | h | ⟨h1, (h2 | h2)⟩)
    · simp [factoryBuildInfo, hkeep, h]
    · simp [factoryBuildInfo, hkeep, h]
    · simp [factoryBuildInfo, hkeep, h1, h2]
    · by_cases hf : env.buildInfoFileExists
      · simp [factoryBuildInfo, hkeep, h1, hf, h2]
      · simp [factoryBuildInfo, hkeep, h1, hf]

/-- Witness for C1: a concrete call with a supplied build-info object, which
is used as-is. -/
theorem configFactory_build_info_three_way_witness :
    factoryBuildInfo
      (normalizeOptions { exOptions with keepBuildInfo := some (.info exBuildInfo) }) exEnv
      = exBuildInfo.toJson :=
  (configFactory_build_info_three_way
    { exOptions with keepBuildInfo := some (.info exBuildInfo) } exEnv).1 exBuildInfo rfl

/-- C2 counterexample: a call with `dontEmitBuildInfo` set performs no
file-system effect at all; in particular no `.build-info` file is written,
refuting "every invocation writes the build-info artifact". -/
theorem configFactory_build_info_write_counterexample :
    (configFactory { exOptions with dontEmitBuildInfo := some true } exEnv).effects
      = [] := rfl

/-- C2 (amended): every invocation of `configFactory` whose
`dontEmitBuildInfo` option is unset or falsy writes the settled build-info
value, stringified, to `<context>/.build-info`, exactly once; the freshly
generated artifact is a record with exactly the fields `key`, `publicPath`,
`useServiceWorker` and `timestamp`. -/
theorem configFactory_writes_build_info (ops : OptionsT) (env : FactoryEnv)
    (h : ops.dontEmitBuildInfo.getD false = false) :
    (configFactory ops env).effects.filter (buildInfoWriteP ops.context) =
      [FsEffect.writeFile (pathResolve ops.context ".build-info")
        (factoryBuildInfo (normalizeOptions ops) env).stringify] ∧
    jsonObjFieldNames ((freshBuildInfo (normalizeOptions ops) env).toJson) =
      ["key", "publicPath", "useServiceWorker", "timestamp"] := by
  refine ⟨?_, rfl⟩
  have hsplit : (configFactory ops env).effects =
      sitemapEffects (normalizeOptions ops) env ++
        buildInfoEffects (normalizeOptions ops) env := rfl
  rw [hsplit, List.filter_append,
    sitemapEffects_no_build_info_write, List.nil_append]
  have hemit : (normalizeOptions ops).dontEmitBuildInfo.getD false = false := h
  have hctx : (normalizeOptions ops).context = ops.context := rfl
  unfold buildInfoEffects
  simp [hemit, hctx, List.filter, buildInfoWriteP]

/-- The fatal-error logs contain only log effects. -/
theorem mem_fatalErrorLogs (x : HandlerEffect) (err : Option JsErrorT)
    (hx : x ∈ fatalErrorLogs err) :
    (∃ s, x = .logErrorStack s) ∨ ∃ s, x = .logErrorDetails s := by
  rcases err with _ | e
  · simp [fatalErrorLogs] at hx
  · rcases hd : e.details with _ | d
    · simp [fatalErrorLogs, hd] at hx
      exact Or.inl ⟨e.stack, hx⟩
    · simp [fatalErrorLogs, hd] at hx
      rcases hx with hx | hx
      · exact Or.inl ⟨e.stack, hx⟩
      · exact Or.inr ⟨d, hx⟩

/-- The stats-error logs contain only the one log effect. -/
theorem mem_statsErrorLogs (x : HandlerEffect) (stats : WebpackStatsT)
    (hx : x ∈ statsErrorLogs stats) :
    x = .logStatsErrors stats.errorsInfo := by
  unfold statsErrorLogs at hx
  by_cases h : stats.hasErrors <;> simp [h] at hx
  exact hx

/-- C3: in the compilation-results handler of the CLI build script, a
compilation failure (a fatal `error` argument or `stats.hasErrors()`) sets a
non-zero process exit code iff the build type is not `development`; in
development mode the failure is only logged, no exit code is set and the
handler continues processing the stats, still writing the chunk-group
manifest. -/
theorem handler_failure_exit_code (buildType webpackOutDir : String)
    (error : Option JsErrorT) (stats : WebpackStatsT)
    (hfail : error.isSome = true ∨ stats.hasErrors = true) :
    (HandlerEffect.setExitCode 1 ∈
        handleWebpackCompilationResults buildType webpackOutDir error stats ↔
      buildType ≠ BUILD_TYPES_DEVELOPMENT) ∧
    (buildType = BUILD_TYPES_DEVELOPMENT →
      (∀ n, HandlerEffect.setExitCode n ∉
          handleWebpackCompilationResults buildType webpackOutDir error stats) ∧
      HandlerEffect.writeChunkGroups (webpackOutDir ++ "/__chunk_groups__.json")
          (chunkGroupsMapping stats) ∈
        handleWebpackCompilationResults buildType webpackOutDir error stats ∧
      (∀ e, error = some e →
        HandlerEffect.logErrorStack e.stack ∈
          handleWebpackCompilationResults buildType webpackOutDir error stats) ∧
      (stats.hasErrors = true →
        HandlerEffect.logStatsErrors stats.errorsInfo ∈
          handleWebpackCompilationResults buildType webpackOutDir error stats)) := by
  by_cases hdev : buildType = BUILD_TYPES_DEVELOPMENT
  · have hfx : handleWebpackCompilationResults buildType webpackOutDir error stats =
        fatalErrorLogs error ++ statsErrorLogs stats ++
        (if stats.hasWarnings then [.logWarnings stats.warningsInfo] else []) ++
        [.logStats stats.statsString,
         .writeChunkGroups (webpackOutDir ++ "/__chunk_groups__.json")
           (chunkGroupsMapping stats)] := by
      simp [handleWebpackCompilationResults, hdev]
    have hnoexit : ∀ n, HandlerEffect.setExitCode n ∉
        handleWebpackCompilationResults buildType webpackOutDir error stats := by
      intro n hn
      rw [hfx] at hn
      simp only [List.mem_append, List.mem_cons, List.mem_singleton,
        List.not_mem_nil] at hn
      rcases hn with ((hn | hn) | hn) | hn
      · rcases mem_fatalErrorLogs _ _ hn with ⟨s, hs⟩ | ⟨s, hs⟩ <;> simp at hs
      · have hs := mem_statsErrorLogs _ _ hn
        simp at hs
      · by_cases hw : stats.hasWarnings <;> simp [hw] at hn
      · rcases hn with hn | hn <;> simp at hn
    refine ⟨⟨fun hm => absurd hm (hnoexit 1), fun hne => absurd hdev hne⟩, ?_⟩
    intro _
    refine ⟨hnoexit, ?_, ?_, ?_⟩
    · rw [hfx]; simp
    · intro e he
      rw [hfx]
      simp [fatalErrorLogs, he]
    · intro herr
      rw [hfx]
      simp [statsErrorLogs, herr]
  · have hbne : (buildType != BUILD_TYPES_DEVELOPMENT) = true := by
      simpa [bne_iff_ne] using hdev
    have hexit : HandlerEffect.setExitCode 1 ∈
        handleWebpackCompilationResults buildType webpackOutDir error stats := by
      unfold handleWebpackCompilationResults
      rcases herr : error with _ | e
      · have hse : stats.hasErrors = true := by
          rcases hfail with hf | hf
          · rw [herr] at hf
            simp at hf
          · exact hf
        simp [hbne, hse]
      · simp [hbne]
    exact ⟨⟨fun _ => hdev, fun _ => hexit⟩, fun hd => absurd hd hdev⟩

/-- Witness for C3: a failing production-mode compilation sets the exit
code. -/
theorem handler_failure_exit_code_witness :
    HandlerEffect.setExitCode 1 ∈
      handleWebpackCompilationResults BUILD_TYPES_PRODUCTION "/out" (some exErr) exStats :=
  ((handler_failure_exit_code BUILD_TYPES_PRODUCTION "/out" (some exErr) exStats
    (Or.inl rfl)).1).mpr (by decide)

/-- C4: for every build-type argument outside `development`/`production`
(including an omitted one) the CLI build script throws `Invalid build type`
having performed no effect: no directory is cleaned or created and no build
step runs. -/
theorem buildScript_invalid_build_type (args : CmdLineArgs) (cwd : String)
    (h : validBuildType args.buildType = false) :
    runBuildScript args cwd = ([], some "Invalid build type") := by
  simp [runBuildScript, h]

/-- Witness for C4: a concrete unknown build type halts the script with an
empty effect trace. -/
theorem buildScript_invalid_build_type_witness :
    runBuildScript { buildType := some "staging" } "/app" =
      ([], some "Invalid build type") :=
  buildScript_invalid_build_type { buildType := some "staging" } "/app" (by decide)

/-- C7 counterexample: on a fatal error in a production build the handler
returns early; its complete effect list is a log and the exit code, with no
`__chunk_groups__.json` write. -/
theorem handler_chunk_groups_counterexample :
    handleWebpackCompilationResults BUILD_TYPES_PRODUCTION "/out" (some exErr) exStats =
      [.logErrorStack "boom", .setExitCode 1] ∧
    HandlerEffect.writeChunkGroups ("/out" ++ "/__chunk_groups__.json")
        (chunkGroupsMapping exStats) ∉
      handleWebpackCompilationResults BUILD_TYPES_PRODUCTION "/out" (some exErr) exStats := by
  constructor
  · simp [handleWebpackCompilationResults, fatalErrorLogs, exErr, exStats,
      BUILD_TYPES_PRODUCTION, BUILD_TYPES_DEVELOPMENT]
  · decide

/-- C7 (amended): whenever the handler does not return early on a failure
outside development mode — i.e. on a clean compilation, or in development
mode — it writes `__chunk_groups__.json` into the webpack output directory,
holding the mapping of each named chunk group to its asset names. -/
theorem handler_writes_chunk_groups (buildType webpackOutDir : String)
    (error : Option JsErrorT) (stats : WebpackStatsT)
    (h : (error = none ∧ stats.hasErrors = false) ∨
      buildType = BUILD_TYPES_DEVELOPMENT) :
    HandlerEffect.writeChunkGroups (webpackOutDir ++ "/__chunk_groups__.json")
        (chunkGroupsMapping stats) ∈
      handleWebpackCompilationResults buildType webpackOutDir error stats := by
  rcases h with ⟨he, hs⟩ | hdev
  · simp [handleWebpackCompilationResults, he, hs]
  · simp [handleWebpackCompilationResults, hdev]

/-- Witness for C7: a clean production compilation writes the manifest. -/
theorem handler_writes_chunk_groups_witness :
    HandlerEffect.writeChunkGroups ("/out" ++ "/__chunk_groups__.json")
        (chunkGroupsMapping exStats) ∈
      handleWebpackCompilationResults BUILD_TYPES_PRODUCTION "/out" none exStats :=
  handler_writes_chunk_groups BUILD_TYPES_PRODUCTION "/out" none exStats
    (Or.inl ⟨rfl, rfl⟩)

/-- Witness for C2: the concrete default call writes the fresh build info to
`/proj/.build-info` once. -/
theorem configFactory_writes_build_info_witness :
    (configFactory exOptions exEnv).effects.filter (buildInfoWriteP exOptions.context) =
      [FsEffect.writeFile (pathResolve exOptions.context ".build-info")
        (factoryBuildInfo (normalizeOptions exOptions) exEnv).stringify] ∧
    jsonObjFieldNames ((freshBuildInfo (normalizeOptions exOptions) exEnv).toJson) =
      ["key", "publicPath", "useServiceWorker", "timestamp"] :=
  configFactory_writes_build_info exOptions exEnv rfl

/-- C5: `configFactory` initiates a `sitemap.xml` write into the resolved
output directory iff the sitemap option is configured (truthy); when that
directory does not exist it is created first; and a sitemap source module
that is a factory function has its return value used as the entry list
streamed to the sitemap library. -/
theorem configFactory_sitemap_emission (ops : OptionsT) (env : FactoryEnv) :
    (strTruthy ops.sitemap = true →
      FsEffect.writeFile
          (pathResolve (pathResolve ops.context
            ((normalizeOptions ops).outputPath.getD "")) "sitemap.xml")
          (env.renderSitemap (sitemapSource env)) ∈
        (configFactory ops env).effects) ∧
    (strTruthy ops.sitemap = false →
      ∀ p c, FsEffect.writeFile p c ∈ (configFactory ops env).effects →
        p = pathResolve ops.context ".build-info") ∧
    (strTruthy ops.sitemap = true → env.outDirExists = false →
      FsEffect.mkdir (pathResolve ops.context
          ((normalizeOptions ops).outputPath.getD "")) ∈
        (configFactory ops env).effects) ∧
    (∀ f, env.sitemapModule = .factory f → sitemapSource env = f ()) := by
  have hsm : (normalizeOptions ops).sitemap = ops.sitemap := rfl
  have hctx : (normalizeOptions ops).context = ops.context := rfl
  refine ⟨?_, ?_, ?_, ?_⟩
  · intro hs
    by_cases ho : env.outDirExists <;>
      simp [configFactory, sitemapEffects, hsm, hctx, hs, ho]
  · intro hs p c hmem
    have hfx : (configFactory ops env).effects =
        buildInfoEffects (normalizeOptions ops) env := by
      show sitemapEffects (normalizeOptions ops) env ++
        buildInfoEffects (normalizeOptions ops) env = _
      simp [sitemapEffects, hsm, hs]
    rw [hfx] at hmem
    unfold buildInfoEffects at hmem
    by_cases hd : (normalizeOptions ops).dontEmitBuildInfo.getD false
    · simp [hd] at hmem
    · simp [hd] at hmem
      exact hmem.1
  · intro hs ho
    simp [configFactory, sitemapEffects, hsm, hctx, hs, ho]
  · intro f hf
    simp [sitemapSource, hf]

/-- Witness for C5: with a configured sitemap and a factory module, the
`sitemap.xml` write is initiated and the factory's return value is the entry
list. -/
theorem configFactory_sitemap_emission_witness :
    FsEffect.writeFile
        (pathResolve (pathResolve exOptionsSitemap.context
          ((normalizeOptions exOptionsSitemap).outputPath.getD "")) "sitemap.xml")
        (exEnvSitemap.renderSitemap (sitemapSource exEnvSitemap)) ∈
      (configFactory exOptionsSitemap exEnvSitemap).effects ∧
    sitemapSource exEnvSitemap = ["/a", "/b"] :=
  ⟨(configFactory_sitemap_emission exOptionsSitemap exEnvSitemap).1 (by decide),
   (configFactory_sitemap_emission exOptionsSitemap exEnvSitemap).2.2.2
     (fun _ => ["/a", "/b"]) rfl⟩

/-- C6: `configFactory` fills in defaults only for absent options — output
path `build/web-public`, CSS local ident `[hash:base64:6]`, Babel loader
options `\x7b\x7d`, public path `""` — keeps caller-supplied values for them
unchanged, leaves every other option untouched, and feeds the normalized
values into the returned configuration. -/
theorem configFactory_option_defaults (ops : OptionsT) :
    ((ops.outputPath = none →
        (normalizeOptions ops).outputPath = some "build/web-public") ∧
     (ops.cssLocalIdent = none →
        (normalizeOptions ops).cssLocalIdent = some "[hash:base64:6]") ∧
     (ops.babelLoaderOptions = none →
        (normalizeOptions ops).babelLoaderOptions = some []) ∧
     (ops.publicPath = none → (normalizeOptions ops).publicPath = some "")) ∧
    ((∀ v, ops.outputPath = some v → (normalizeOptions ops).outputPath = some v) ∧
     (∀ v, ops.cssLocalIdent = some v →
        (normalizeOptions ops).cssLocalIdent = some v) ∧
     (∀ v, ops.babelLoaderOptions = some v →
        (normalizeOptions ops).babelLoaderOptions = some v) ∧
     (∀ v, ops.publicPath = some v → (normalizeOptions ops).publicPath = some v)) ∧
    ((normalizeOptions ops).context = ops.context ∧
     (normalizeOptions ops).entry = ops.entry ∧
     (normalizeOptions ops).mode = ops.mode ∧
     (normalizeOptions ops).babelEnv = ops.babelEnv ∧
     (normalizeOptions ops).keepBuildInfo = ops.keepBuildInfo ∧
     (normalizeOptions ops).sitemap = ops.sitemap ∧
     (normalizeOptions ops).workbox = ops.workbox ∧
     (normalizeOptions ops).dontEmitBuildInfo = ops.dontEmitBuildInfo ∧
     (normalizeOptions ops).typescript = ops.typescript ∧
     (normalizeOptions ops).dontUseProgressPlugin = ops.dontUseProgressPlugin) ∧
    (∀ env : FactoryEnv,
      (configFactory ops env).config.cssLocalIdentName =
        (normalizeOptions ops).cssLocalIdent.getD "" ∧
      (configFactory ops env).config.outputPath =
        pathResolve (pathResolve env.dirname ops.context)
          ((normalizeOptions ops).outputPath.getD "") ∧
      (configFactory ops env).config.outputPublicPath =
        (normalizeOptions ops).publicPath.getD "" ++ "/" ∧
      (configFactory ops env).config.babelLoaderOptions.spread =
        (normalizeOptions ops).babelLoaderOptions.getD []) := by
  refine ⟨⟨?_, ?_, ?_, ?_⟩, ⟨?_, ?_, ?_, ?_⟩,
    ⟨rfl, rfl, rfl, rfl, rfl, rfl, rfl, rfl, rfl, rfl⟩,
    fun env => ⟨rfl, rfl, rfl, rfl⟩⟩
  · intro h
    simp [normalizeOptions, applyDefaults, lodashClone, h]
  · intro h
    simp [normalizeOptions, applyDefaults, lodashClone, h]
  · intro h
    simp [normalizeOptions, applyDefaults, lodashClone, h]
  · intro h
    simp [normalizeOptions, applyDefaults, lodashClone, h]
  · intro v h
    simp [normalizeOptions, applyDefaults, lodashClone, h]
  · intro v h
    simp [normalizeOptions, applyDefaults, lodashClone, h]
  · intro v h
    simp [normalizeOptions, applyDefaults, lodashClone, h]
  · intro v h
    simp [normalizeOptions, applyDefaults, lodashClone, h]

/-- Witness for C6: one call with a supplied CSS ident and an absent output
path keeps the former and defaults the latter. -/
theorem configFactory_option_defaults_witness :
    (normalizeOptions { exOptions with cssLocalIdent := some "[local]" }).cssLocalIdent
        = some "[local]" ∧
    (normalizeOptions { exOptions with cssLocalIdent := some "[local]" }).outputPath
        = some "build/web-public" :=
  ⟨(configFactory_option_defaults
      { exOptions with cssLocalIdent := some "[local]" }).2.1.2.1 "[local]" rfl,
   (configFactory_option_defaults
      { exOptions with cssLocalIdent := some "[local]" }).1.1 rfl⟩

/-- C8: `configFactory` never mutates the caller-supplied options record:
in the record store of one call, the caller's record (address 0) is
unchanged, because both the `defaults` application and the workbox rewrite
target the clone at address 1. -/
theorem configFactory_ops_not_mutated (ops : OptionsT) :
    (factoryOpsStore ops).head? = some ops ∧
    factoryOpsStore ops = [ops, workboxRewrite (applyDefaults ops)] :=
  ⟨rfl, rfl⟩

/-- C9: the Modal overlay carries `aria-label` "Cancel"; with an `onCancel`
prop, a click or an Escape keydown on it invokes the callback and stops
propagation; without one, neither handler acts on or stops the event. -/
theorem modal_overlay_cancel_behavior :
    modalOverlay.ariaLabel = "Cancel" ∧
    (∀ u : Unit, overlayOnClick (some u) =
      { invokedOnCancel := true, stoppedPropagation := true }) ∧
    overlayOnClick none =
      { invokedOnCancel := false, stoppedPropagation := false } ∧
    (∀ u : Unit, overlayOnKeyDown (some u) "Escape" =
      { invokedOnCancel := true, stoppedPropagation := true }) ∧
    (∀ key, overlayOnKeyDown none key =
      { invokedOnCancel := false, stoppedPropagation := false }) := by
  refine ⟨rfl, fun u => rfl, rfl, fun u => by simp [overlayOnKeyDown], fun key => ?_⟩
  unfold overlayOnKeyDown
  by_cases h : key = "Escape" <;> simp [h]

/-- C10: the entry list of the returned configuration is exactly the three
polyfills followed by the caller's entry points, a single string entry
becoming a one-element list. -/
theorem configFactory_entry_polyfills (ops : OptionsT) (env : FactoryEnv) :
    (configFactory ops env).config.entry =
      ["core-js/stable", "regenerator-runtime/runtime",
       "nodelist-foreach-polyfill"] ++
        (match ops.entry with
         | .str s => [s]
         | .list l => l) := rfl

end ReactUtils
